import Mathlib

/-!
Verification of the Kodijong cart / order-message logic (`src/script.js`).

The script is shallowly embedded: JS numbers are modelled as exact
rationals (`ℚ`), fields that may be absent or non-numeric are modelled by
`JsNum`, the `localStorage`-backed cart store is explicit state passing,
and the DOM input fields / notification queue are components of a
`PageState` record.  Nondeterministic environment events (storage throws,
`window.open` outcome, `Date.now()`) are explicit parameters.
-/

set_option linter.unusedVariables false

namespace Kodijong

/-! ### JS numeric field values

A cart entry read back from `localStorage` can carry any JSON value in a
numeric field.  `JsNum.undef` models a missing field (`undefined`),
`JsNum.nan` models a value on which `parseInt` / `parseFloat` yield `NaN`
(for example a non-numeric string), and `JsNum.num q` models an actual
JS number, taken exact as a rational. -/
inductive JsNum where
  | undef : JsNum
  | nan : JsNum
  | num : ℚ → JsNum
deriving DecidableEq

/-- JS `parseInt(String(x))` on a finite number truncates toward zero
(the decimal rendering is cut at the `.`). -/
def jsTrunc (q : ℚ) : Int := if 0 ≤ q then ⌊q⌋ else -⌊-q⌋

/-- `parseInt(v)` where `v` is a field value: `some` integer, or `none` for `NaN`. -/
def jsParseInt : JsNum → Option Int
  | .num q => some (jsTrunc q)
  | _ => none

/-- `parseInt(v) || d` — the default also replaces a parsed `0`, which is falsy. -/
def jsParseIntOr (d : Int) (v : JsNum) : Int :=
  match jsParseInt v with
  | some n => if n = 0 then d else n
  | none => d

/-- `parseFloat(v) || 0` — `NaN` (and `0` itself, harmlessly) become `0`. -/
def jsParseFloatOr0 : JsNum → ℚ
  | .num q => q
  | _ => 0

/-! ### `Number.prototype.toFixed(2)`

Per the ECMAScript algorithm: take the sign out, pick the integer `n`
with `n / 100` closest to `|x|` (ties choose the larger `n`), and print
`n` with two decimals. -/

/-- Render a remainder `< 100` as exactly two digits. -/
def twoDigits (n : Nat) : String :=
  if n < 10 then "0" ++ toString n else toString n

/-- `x.toFixed(2)` on an exact rational. -/
def toFixed2 (q : ℚ) : String :=
  (if q < 0 then "-" else "") ++
    toString ((⌊100 * |q| + 1/2⌋).toNat / 100) ++ "." ++
    twoDigits ((⌊100 * |q| + 1/2⌋).toNat % 100)

/-! ### Phone validation (`sendWhatsAppOrder`, script.js lines 252–262)

`phone.replace(/\s/g, '')` then `/^(\+27|0)[1-9]\d{8}$/.test(...)`,
and the display normalization
`cleanedPhone.replace(/^\+27/, '0').replace(/^27/, '0')`. -/

/-- Characters matched by the JS regex class `\s`. -/
def jsWhitespace (c : Char) : Bool :=
  c = ' ' || c = '\t' || c = '\n' || c = '\r' ||
  c.toNat = 11 || c.toNat = 12 ||      -- \v \f
  c.toNat = 0xA0 || c.toNat = 0x1680 ||
  (0x2000 ≤ c.toNat && c.toNat ≤ 0x200A) ||
  c.toNat = 0x2028 || c.toNat = 0x2029 || c.toNat = 0x202F ||
  c.toNat = 0x205F || c.toNat = 0x3000 || c.toNat = 0xFEFF

/-- `phone.replace(/\s/g, '')`. -/
def stripWs (s : String) : String :=
  String.mk (s.data.filter (fun c => ¬ jsWhitespace c))

/-- JS `s.startsWith(pre)`, on the character sequence. -/
def strStartsWith (s pre : String) : Bool :=
  pre.data.isPrefixOf s.data

/-- JS `s.slice(n)` / dropping the first `n` characters. -/
def strDrop (s : String) (n : Nat) : String :=
  String.mk (s.data.drop n)

/-- JS `s.trim()`: strip leading and trailing `\s`-class characters. -/
def jsTrim (s : String) : String :=
  String.mk (((s.data.dropWhile jsWhitespace).reverse.dropWhile jsWhitespace).reverse)

def isDigitChar (c : Char) : Bool := 48 ≤ c.toNat && c.toNat ≤ 57

def isDigit19 (c : Char) : Bool := 49 ≤ c.toNat && c.toNat ≤ 57

/-- The `[1-9]\d{8}$` part of the phone regex, on the remaining characters. -/
def phoneTail : List Char → Bool
  | c :: rest => isDigit19 c && rest.length == 8 && rest.all isDigitChar
  | [] => false

/-- `/^(\+27|0)[1-9]\d{8}$/.test s`. -/
def phoneRegexTest (s : String) : Bool :=
  match s.data with
  | '+' :: '2' :: '7' :: rest => phoneTail rest
  | '0' :: rest => phoneTail rest
  | _ => false

/-- The complete phone check in `sendWhatsAppOrder`: strip `\s`, then test. -/
def phoneAccepted (phone : String) : Bool :=
  phoneRegexTest (stripWs phone)

/-- `s.replace(/^pat/, rep)`: rewrite `pat` to `rep` when it leads the string. -/
def rewriteLeading (pat rep s : String) : String :=
  if strStartsWith s pat then rep ++ strDrop s pat.length else s

/-- `displayPhone`: `cleanedPhone.replace(/^\+27/, '0').replace(/^27/, '0')`. -/
def displayPhone (phone : String) : String :=
  rewriteLeading "27" "0" (rewriteLeading "+27" "0" (stripWs phone))

/-- The spec's characterization of an accepted (already space-stripped)
phone string: `+27` or a leading `0`, then one digit 1–9, then 8 more
digits. -/
def specPhonePattern (s : String) : Prop :=
  ∃ c rest, (s.data = '+' :: '2' :: '7' :: c :: rest ∨ s.data = '0' :: c :: rest) ∧
    isDigit19 c = true ∧ rest.length = 8 ∧ ∀ d ∈ rest, isDigitChar d = true

/-! ### Cart data model

Only the fields the cart logic reads.  Persisted data comes from
`JSON.parse`, so every field may be absent (`none` / `JsNum.undef`) or of
the wrong type. -/

/-- An element of an entry's `extras` / `drinks` array. -/
structure SubItem where
  name : Option String
  quantity : JsNum
deriving DecidableEq

/-- One cart entry, as read from the store.  `options = none` also covers a
non-string `options` value (the code guards with
`item.options && typeof item.options === 'string'`, grouping those with
the absent case); likewise `extras/drinks = none` covers non-array values. -/
structure CartItem where
  name : Option String := none
  basePrice : JsNum := .undef
  quantity : JsNum := .undef
  options : Option String := none
  extras : Option (List SubItem) := none
  drinks : Option (List SubItem) := none
deriving DecidableEq

/-! ### Cart totals

`updateCartDisplay` (script.js 480–521) and the order-summary loop in
`sendWhatsAppOrder` (272–283) each accumulate
`(parseFloat(item.basePrice) || 0) * (parseInt(item.quantity) || 1)`. -/

/-- One line's total: `basePrice * quantity` after the JS coercions. -/
def itemLineTotal (it : CartItem) : ℚ :=
  jsParseFloatOr0 it.basePrice * (jsParseIntOr 1 it.quantity : ℚ)

/-- The running `total` of `updateCartDisplay`'s render loop. -/
def updateCartDisplayTotal (cart : List CartItem) : ℚ :=
  cart.foldl (fun total it => total + itemLineTotal it) 0

/-- The running `cartTotal` of `sendWhatsAppOrder`'s summary loop. -/
def sendOrderCartTotal (cart : List CartItem) : ℚ :=
  cart.foldl (fun cartTotal it => cartTotal + itemLineTotal it) 0

/-- `totalPriceElement.textContent = R${total.toFixed(2)}`. -/
def totalPriceText (cart : List CartItem) : String :=
  "R" ++ toFixed2 (updateCartDisplayTotal cart)

/-- The amount printed on the `*TOTAL AMOUNT:*` line of the outbound
message: `R${cartTotal.toFixed(2)}`. -/
def totalAmountText (cart : List CartItem) : String :=
  "R" ++ toFixed2 (sendOrderCartTotal cart)

/-- The spec's per-entry amount, `basePrice × quantity`, read directly off
the numeric fields (meaningful when both fields are numbers). -/
def specLineTotal (it : CartItem) : ℚ :=
  (match it.basePrice with | .num b => b | _ => 0) *
  (match it.quantity with | .num q => q | _ => 0)

/-- The spec's total: the sum over all entries of `basePrice × quantity`. -/
def specCartTotal (cart : List CartItem) : ℚ :=
  (cart.map specLineTotal).sum

/-! ### Cart count badge (`_updateCartCountImmediate`, script.js 70–93)

`cart.reduce((sum, item) => { const quantity = parseInt(item.quantity) || 0;
return sum + (quantity > 0 ? quantity : 0); }, 0)`. -/

/-- The `totalItems` accumulation of `_updateCartCountImmediate`. -/
def totalItems (cart : List CartItem) : Int :=
  cart.foldl
    (fun sum it =>
      let quantity := jsParseIntOr 0 it.quantity
      sum + (if quantity > 0 then quantity else 0)) 0

/-! ### Persistent cart store (`CartManager`, script.js 5–46)

`localStorage['kodijongCart']` is modelled post-`JSON.parse`: `absent`
(key missing, `getItem` returns `null`), `malformed` (content on which
`JSON.parse` throws), `nonArray` (parses but `Array.isArray` is false),
or `arr l`.  `JSON.stringify`/`JSON.parse` round-trip on our tree-shaped
data, so persisting `l` stores `arr l`. -/

inductive StoredVal where
  | absent : StoredVal
  | malformed : StoredVal
  | nonArray : StoredVal
  | arr : List CartItem → StoredVal
deriving DecidableEq

/-- `_cartCache` / `_cartCacheTime` plus the storage slot. -/
structure StoreState where
  stored : StoredVal
  cache : Option (List CartItem)
  cacheTime : Nat
deriving DecidableEq

/-- `_CACHE_DURATION`. -/
def CACHE_DURATION : Nat := 1000

/-- The `try` block of `getCart`: read, parse, normalize non-arrays to
`[]`, fill the cache.  The `catch` paths (`getItem` throwing, modelled by
`readThrows`, and `JSON.parse` throwing on `malformed` content) return
`[]` WITHOUT touching the cache. -/
def getCartFromStorage (now : Nat) (readThrows : Bool) (st : StoreState) :
    List CartItem × StoreState :=
  if readThrows then ([], st)
  else
    match st.stored with
    | .absent => ([], { st with cache := some [], cacheTime := now })
    | .malformed => ([], st)
    | .nonArray => ([], { st with cache := some [], cacheTime := now })
    | .arr l => (l, { st with cache := some l, cacheTime := now })

/-- `getCart` (script.js 12–28).  `now` is `Date.now()`.  Times only move
forward, and `ℕ` truncated subtraction agrees with JS subtraction on the
`< 1000` comparison for `now ≥ cacheTime`.  Any cached array (including
`[]`) is truthy, so the cache check is only on presence and age. -/
def getCart (now : Nat) (readThrows : Bool) (st : StoreState) :
    List CartItem × StoreState :=
  match st.cache with
  | some c =>
    if now - st.cacheTime < CACHE_DURATION then (c, st)
    else getCartFromStorage now readThrows st
  | none => getCartFromStorage now readThrows st

/-- The argument passed to `saveCart`: an array, or any non-array value. -/
inductive SaveVal where
  | arr : List CartItem → SaveVal
  | nonArray : SaveVal
deriving DecidableEq

/-- `saveCart` (script.js 31–46).  `writeThrows` models
`localStorage.setItem` throwing (e.g. quota); in that case the `catch`
returns `false` before the cache is updated, so nothing changes. -/
def saveCart (now : Nat) (writeThrows : Bool) (v : SaveVal) (st : StoreState) :
    Bool × StoreState :=
  match v with
  | .nonArray => (false, st)
  | .arr l =>
    if writeThrows then (false, st)
    else (true, { stored := .arr l, cache := some l, cacheTime := now })

/-! ### The remove-item click handler (script.js 525–538)

`parseInt(e.target.dataset.index, 10)` (modelled post-parse as
`Option Int`, `none` for `NaN`), then an `isNaN` guard, a bounds check
against the freshly read cart, `cart.splice(index, 1)` and `saveCart`. -/

/-- The cart produced (and persisted) by one remove-button click. -/
def removeItemHandler (idx : Option Int) (cart : List CartItem) : List CartItem :=
  match idx with
  | none => cart
  | some k =>
    if 0 ≤ k ∧ k < cart.length then cart.eraseIdx k.toNat else cart

/-! ### `sendWhatsAppOrder` (script.js 228–386)

State threading for the order composer.  The three customer inputs are
modelled as present text fields; the notification queue as the list of
`(message, type)` pairs enqueued so far.  `window.open`'s outcome is the
environment parameter `OpenResult` (`opened` = truthy window handle,
`blocked` = falsy handle, `threw` = the call raised). -/

inductive OpenResult where
  | opened : OpenResult
  | blocked : OpenResult
  | threw : OpenResult
deriving DecidableEq

structure PageState where
  store : StoreState
  nameField : String
  phoneField : String
  instructionsField : String
  notifs : List (String × String)
deriving DecidableEq

structure SendResult where
  ok : Bool
  state : PageState
  /-- whether `window.open` was invoked at all -/
  openTried : Bool
deriving DecidableEq

/-- `showNotification(message, type)`: append to the queue. -/
def pushNotif (st : PageState) (message ty : String) : PageState :=
  { st with notifs := st.notifs ++ [(message, ty)] }

/-- The control flow of `sendWhatsAppOrder`.  Message text, order number
and timestamp do not affect control flow or state and are elided here;
the amount on its `TOTAL AMOUNT` line is `totalAmountText` above. -/
def sendWhatsAppOrder (now : Nat) (readThrows writeThrows : Bool)
    (openRes : OpenResult) (st : PageState) : SendResult :=
  let rd := getCart now readThrows st.store
  let cart := rd.1
  let st := { st with store := rd.2 }
  if cart.length = 0 then
    { ok := false, state := pushNotif st "Your cart is empty!" "error",
      openTried := false }
  else
    let name := jsTrim st.nameField
    let phone := jsTrim st.phoneField
    if name = "" ∨ phone = "" then
      { ok := false,
        state := pushNotif st "Please enter your name and phone number" "error",
        openTried := false }
    else
      let cleanedPhone := stripWs phone
      if ¬ phoneRegexTest cleanedPhone then
        { ok := false,
          state := pushNotif st "Please enter a valid South African phone number" "error",
          openTried := false }
      else
        match openRes with
        | .blocked =>
          { ok := false,
            state := pushNotif st "Please allow pop-ups to send the order" "error",
            openTried := true }
        | .threw =>
          { ok := false, state := pushNotif st "Could not open WhatsApp" "error",
            openTried := true }
        | .opened =>
          let sv := saveCart now writeThrows (.arr []) st.store
          let rd2 := getCart now readThrows sv.2   -- `_updateCartCountImmediate` re-reads
          let st :=
            { st with store := rd2.2, nameField := "", phoneField := "",
                      instructionsField := "" }
          { ok := true,
            state := pushNotif st "Order sent successfully! Check WhatsApp." "success",
            openTried := true }

/-! ### Option formatting

`formatOptionsForDisplay` (script.js 163–225) and the per-item
options/extras/drinks portion of the message loop in `sendWhatsAppOrder`
(284–332).  The decorative marker strings below reproduce the exact
(mojibake) code points present in the source file. -/

def greensIcon : String := "ü•¨"
def saucesIcon : String := "üç∂"
def extrasIcon : String := "üì¶"
def plusIcon : String := "‚ûï"
def drinksIcon : String := "ü•§"

/-- `String(name || '').replace(/[<>]/g, '')`. -/
def stripAngles (s : String) : String :=
  String.mk (s.data.filter (fun c => c != '<' && c != '>'))

/-- A character stripped by `.replace(/[*_~`]/g, '')` (96 is the backquote). -/
def msgSpecialChar (c : Char) : Bool :=
  c = '*' || c = '_' || c = '~' || c.toNat = 96

/-- The message-side name sanitizer. -/
def stripMsgChars (s : String) : String :=
  String.mk (s.data.filter (fun c => ¬ msgSpecialChar c))

/-- The pieces both loops iterate: `item.options.split(' | ')` under the
guard `item.options && typeof item.options === 'string'` (an empty or
non-string `options` yields no iterations). -/
def itemSegStrings (it : CartItem) : List String :=
  match it.options with
  | some s => if s = "" then [] else s.splitOn " | "
  | none => []

/-- `parseInt(x.quantity) || 0`, as used for every extras/drinks element. -/
def subQty (x : SubItem) : Int := jsParseIntOr 0 x.quantity

/-! #### The common semantic decoding

Both formatters recognize a piece by `startsWith('Greens:')` /
`startsWith('Sauces:')` and take
`opt.replace('Greens:', '').trim()` — under the `startsWith` guard the
first occurrence is the 7-character leading key, so `replace` drops
exactly that. Both keep extras/drinks elements with parsed quantity > 0,
with `String(name || '')` and that quantity. -/

/-- A recognized segment of the `options` string with its decoded value. -/
inductive Seg where
  | greens : String → Seg
  | sauces : String → Seg
deriving DecidableEq

/-- The recognized segments, in order of the split. -/
def decodeSegsList : List String → List Seg
  | [] => []
  | opt :: rest =>
    if strStartsWith opt "Greens:" then
      .greens (jsTrim (strDrop opt 7)) :: decodeSegsList rest
    else if strStartsWith opt "Sauces:" then
      .sauces (jsTrim (strDrop opt 7)) :: decodeSegsList rest
    else decodeSegsList rest

/-- A selected extra/drink: raw name (pre-sanitization) and parsed quantity. -/
structure SubSel where
  name : String
  qty : Int
deriving DecidableEq

/-- The elements listed by both formatters: exactly those with quantity > 0. -/
def decodeSubs : List SubItem → List SubSel
  | [] => []
  | x :: xs =>
    let quantity := subQty x
    if quantity > 0 then ⟨x.name.getD "", quantity⟩ :: decodeSubs xs
    else decodeSubs xs

/-- The semantic content of an entry's options/extras/drinks — the
abstraction the spec says both formatters share. -/
structure EntrySemantics where
  segs : List Seg
  extras : List SubSel
  drinks : List SubSel
deriving DecidableEq

/-- The common decoder (the spec's "same semantic decoding"). -/
def entrySemantics (it : CartItem) : EntrySemantics :=
  { segs := decodeSegsList (itemSegStrings it)
    extras := decodeSubs (it.extras.getD [])
    drinks := decodeSubs (it.drinks.getD []) }

/-! #### HTML display formatter (`formatOptionsForDisplay`) -/

def displayGreensFrag (v : String) : String :=
  "<div class=\"cart-option-item\">" ++ greensIcon ++ " " ++
    (if v = "" then "Not specified" else v) ++ "</div>"

def displaySaucesFrag (v : String) : String :=
  "<div class=\"cart-option-item\">" ++ saucesIcon ++ " " ++
    (if v = "" then "Not specified" else v) ++ "</div>"

/-- The fragments pushed by the greens/sauces loop. -/
def displaySegFrags : List String → List String
  | [] => []
  | opt :: rest =>
    if strStartsWith opt "Greens:" then
      displayGreensFrag (jsTrim (strDrop opt 7)) :: displaySegFrags rest
    else if strStartsWith opt "Sauces:" then
      displaySaucesFrag (jsTrim (strDrop opt 7)) :: displaySegFrags rest
    else displaySegFrags rest

def extrasHeader : String :=
  "<div class=\"cart-option-item\">" ++ extrasIcon ++ " Extras:</div>"

def drinksHeader : String :=
  "<div class=\"cart-option-item\">" ++ drinksIcon ++ " Drinks:</div>"

def displaySubLine (icon name : String) (q : Int) : String :=
  "<div class=\"cart-sub-option\">" ++ icon ++ " " ++ stripAngles name ++
    " x" ++ toString q ++ "</div>"

/-- The `hasExtras`/`extrasHtml` (resp. drinks) accumulation loop: on the
first positive-quantity element the accumulator is set to the header,
then each such element appends a sub-option line. -/
def displaySubsLoop (header icon : String) :
    List SubItem → Bool → String → Bool × String
  | [], has, acc => (has, acc)
  | x :: xs, has, acc =>
    let quantity := subQty x
    if quantity > 0 then
      displaySubsLoop header icon xs true
        ((if has then acc else header) ++ displaySubLine icon (x.name.getD "") quantity)
    else displaySubsLoop header icon xs has acc

/-- `formatOptionsForDisplay` — `fragments.join('')`. -/
def formatOptionsForDisplay (it : CartItem) : String :=
  let fragments := displaySegFrags (itemSegStrings it)
  let ex := displaySubsLoop extrasHeader plusIcon (it.extras.getD []) false ""
  let fragments := fragments ++ (if ex.1 then [ex.2] else [])
  let dr := displaySubsLoop drinksHeader drinksIcon (it.drinks.getD []) false ""
  let fragments := fragments ++ (if dr.1 then [dr.2] else [])
  String.join fragments

/-! #### Message text formatter (the per-item part of the message loop) -/

def msgGreensLine (v : String) : String :=
  "\n" ++ greensIcon ++ " *Greens:* " ++
    (if v = "with greens" then "with greens" else "no greens")

def msgSaucesLine (v : String) : String :=
  if v = "all sauces" then "\n" ++ saucesIcon ++ " *Sauces:* all sauces"
  else if v = "no sauces" then "\n" ++ saucesIcon ++ " *Sauces:* no sauces"
  else "\n" ++ saucesIcon ++ " *Sauces:* " ++ stripMsgChars v

/-- The `message +=` contributions of the greens/sauces loop. -/
def msgSegsStr : List String → String
  | [] => ""
  | opt :: rest =>
    (if strStartsWith opt "Greens:" then msgGreensLine (jsTrim (strDrop opt 7))
     else if strStartsWith opt "Sauces:" then msgSaucesLine (jsTrim (strDrop opt 7))
     else "") ++ msgSegsStr rest

/-- The `extrasList` / `drinksList` arrays: one `name xQty` string per
positive-quantity element. -/
def msgSubsList : List SubItem → List String
  | [] => []
  | x :: xs =>
    let quantity := subQty x
    if quantity > 0 then
      (stripMsgChars (x.name.getD "") ++ " x" ++ toString quantity) :: msgSubsList xs
    else msgSubsList xs

/-- The options/extras/drinks text appended to the message for one item. -/
def msgItemOptions (it : CartItem) : String :=
  msgSegsStr (itemSegStrings it)
  ++ (let l := msgSubsList (it.extras.getD [])
      if l.length > 0 then "\n" ++ plusIcon ++ " *Extras:* " ++ String.intercalate ", " l
      else "")
  ++ (let l := msgSubsList (it.drinks.getD [])
      if l.length > 0 then "\n" ++ drinksIcon ++ " *Drinks:* " ++ String.intercalate ", " l
      else "")

/-! #### Renderers from the common semantics

Each output is shown to be a function of `entrySemantics` alone: pure
output formatting plus the side-specific name sanitization. -/

def renderSegDisplay : Seg → String
  | .greens v => displayGreensFrag v
  | .sauces v => displaySaucesFrag v

def renderSubDisplay (icon : String) (s : SubSel) : String :=
  displaySubLine icon s.name s.qty

def renderDisplay (sem : EntrySemantics) : String :=
  String.join (sem.segs.map renderSegDisplay
    ++ (if sem.extras = [] then []
        else [extrasHeader ++ String.join (sem.extras.map (renderSubDisplay plusIcon))])
    ++ (if sem.drinks = [] then []
        else [drinksHeader ++ String.join (sem.drinks.map (renderSubDisplay drinksIcon))]))

def renderSegMsg : Seg → String
  | .greens v => msgGreensLine v
  | .sauces v => msgSaucesLine v

def renderSubMsg (s : SubSel) : String :=
  stripMsgChars s.name ++ " x" ++ toString s.qty

def renderMsg (sem : EntrySemantics) : String :=
  String.join (sem.segs.map renderSegMsg)
  ++ (if sem.extras = [] then ""
      else "\n" ++ plusIcon ++ " *Extras:* " ++
        String.intercalate ", " (sem.extras.map renderSubMsg))
  ++ (if sem.drinks = [] then ""
      else "\n" ++ drinksIcon ++ " *Drinks:* " ++
        String.intercalate ", " (sem.drinks.map renderSubMsg))

/-! ### Concrete sample data for closed instantiations -/

/-- The spec's scenario entry: `{basePrice: 85, quantity: 2}`. -/
def sampleItem : CartItem := { basePrice := .num 85, quantity := .num 2 }

/-- The same product with a malformed (zero) quantity. -/
def zeroQtyItem : CartItem := { basePrice := .num 85, quantity := .num 0 }

/-- A store persisting a one-entry cart, with a cold cache. -/
def sampleStore : StoreState := { stored := .arr [sampleItem], cache := none, cacheTime := 0 }

/-- A page whose cart has one entry and whose contact inputs are valid. -/
def samplePage : PageState :=
  { store := sampleStore, nameField := "Jo", phoneField := "0821234567",
    instructionsField := "ring twice", notifs := [] }

/-- The same page over an empty persisted cart. -/
def emptyCartPage : PageState :=
  { samplePage with store := { stored := .arr [], cache := none, cacheTime := 0 } }

/-! ## Helper lemmas -/

theorem foldl_add_eq_sum {α : Type} (f : α → ℚ) (l : List α) (a : ℚ) :
    l.foldl (fun t it => t + f it) a = a + (l.map f).sum := by
  induction l generalizing a with
  | nil => simp
  | cons x xs ih => simp [ih, add_assoc]

theorem string_foldl_append (l : List String) (a b : String) :
    l.foldl (· ++ ·) (a ++ b) = a ++ l.foldl (· ++ ·) b := by
  induction l generalizing b with
  | nil => rfl
  | cons x xs ih =>
    simp only [List.foldl_cons]
    rw [String.append_assoc, ih]

theorem string_join_cons (s : String) (l : List String) :
    String.join (s :: l) = s ++ String.join l := by
  show (s :: l).foldl (· ++ ·) "" = s ++ l.foldl (· ++ ·) ""
  simp only [List.foldl_cons]
  calc l.foldl (· ++ ·) ("" ++ s) = l.foldl (· ++ ·) (("" ++ s) ++ "") := by
        rw [String.append_empty]
    _ = ("" ++ s) ++ l.foldl (· ++ ·) "" := string_foldl_append ..
    _ = s ++ l.foldl (· ++ ·) "" := by rw [String.empty_append]

theorem string_join_append (l₁ l₂ : List String) :
    String.join (l₁ ++ l₂) = String.join l₁ ++ String.join l₂ := by
  induction l₁ with
  | nil => simp [String.join, String.empty_append]
  | cons x xs ih =>
    rw [List.cons_append, string_join_cons, string_join_cons, ih,
      String.append_assoc]

/-! ## C9 — removal by index -/

/-- C9: for `0 ≤ k < n` the remove-item handler produces the cart with
exactly the entry at index `k` deleted, keeping the others in their
original relative order (`take k ++ drop (k+1)`), of size `n-1`; any
out-of-range `k` (and a `NaN` index) leaves the cart unchanged. -/
theorem remove_handler_spec (cart : List CartItem) (k : Int) :
    (0 ≤ k → k < cart.length →
      removeItemHandler (some k) cart =
        cart.take k.toNat ++ cart.drop (k.toNat + 1) ∧
      (removeItemHandler (some k) cart).length = cart.length - 1) ∧
    ((k < 0 ∨ (cart.length : Int) ≤ k) →
      removeItemHandler (some k) cart = cart) ∧
    removeItemHandler none cart = cart ∧
    ∀ (now : Nat) (st : StoreState),
      (saveCart now false (.arr (removeItemHandler (some k) cart)) st).2.stored =
        .arr (removeItemHandler (some k) cart) := by
  refine ⟨?_, ?_, rfl, fun now st => rfl⟩
  · intro h0 hlt
    have hk : k.toNat < cart.length := by omega
    simp only [removeItemHandler]
    rw [if_pos (show 0 ≤ k ∧ k < (cart.length : Int) from ⟨h0, hlt⟩)]
    refine ⟨List.eraseIdx_eq_take_drop_succ _ _, ?_⟩
    rw [List.length_eraseIdx]
    simp [hk]
  · intro h
    simp only [removeItemHandler]
    rw [if_neg]
    omega

/-- Closed instance of `remove_handler_spec`: removing index 1 from a
three-entry cart keeps entries 0 and 2 in order. -/
theorem remove_handler_spec_witness :
    removeItemHandler (some 1) [sampleItem, zeroQtyItem, sampleItem] =
      [sampleItem, sampleItem] ∧
    removeItemHandler (some 3) [sampleItem, zeroQtyItem, sampleItem] =
      [sampleItem, zeroQtyItem, sampleItem] := by
  have h := remove_handler_spec [sampleItem, zeroQtyItem, sampleItem] 1
  have h3 := remove_handler_spec [sampleItem, zeroQtyItem, sampleItem] 3
  refine ⟨((h.1 (by decide) (by decide)).1).trans rfl, h3.2.1 (by right; decide)⟩

/-! ## C10 — inconsistent defaulting of malformed quantities -/

/-- C10: an entry whose `quantity` is missing, zero, or unparsable is
priced with quantity 1 by both the cart display and the outbound message
(`parseInt(quantity) || 1`), so it adds its `basePrice` to both totals,
while the cart-count badge (`parseInt(quantity) || 0`, negatives clamped)
counts it as 0; a missing `basePrice` is priced as 0. -/
theorem malformed_quantity_inconsistency (it : CartItem) (cart : List CartItem)
    (hq : it.quantity = .undef ∨ it.quantity = .nan ∨ it.quantity = .num 0) :
    jsParseIntOr 1 it.quantity = 1 ∧
    itemLineTotal it = jsParseFloatOr0 it.basePrice ∧
    updateCartDisplayTotal (cart ++ [it]) =
      updateCartDisplayTotal cart + jsParseFloatOr0 it.basePrice ∧
    sendOrderCartTotal (cart ++ [it]) =
      sendOrderCartTotal cart + jsParseFloatOr0 it.basePrice ∧
    totalItems (cart ++ [it]) = totalItems cart ∧
    (it.basePrice = .undef → jsParseFloatOr0 it.basePrice = 0) := by
  have h1 : jsParseIntOr 1 it.quantity = 1 := by
    rcases hq with h | h | h <;> simp [h, jsParseIntOr, jsParseInt, jsTrunc]
  have h0 : jsParseIntOr 0 it.quantity = 0 := by
    rcases hq with h | h | h <;> simp [h, jsParseIntOr, jsParseInt, jsTrunc]
  have hline : itemLineTotal it = jsParseFloatOr0 it.basePrice := by
    simp [itemLineTotal, h1]
  refine ⟨h1, hline, ?_, ?_, ?_, fun h => by simp [h, jsParseFloatOr0]⟩
  · rw [updateCartDisplayTotal, List.foldl_append]
    simp [updateCartDisplayTotal, hline]
  · rw [sendOrderCartTotal, List.foldl_append]
    simp [sendOrderCartTotal, hline]
  · rw [totalItems, List.foldl_append]
    simp [totalItems, h0]

/-- Closed instance of `malformed_quantity_inconsistency` at the
zero-quantity entry `{basePrice: 85, quantity: 0}`: it adds R85 to the
displayed total and 0 to the badge count. -/
theorem malformed_quantity_inconsistency_witness :
    updateCartDisplayTotal [zeroQtyItem] = 85 ∧ totalItems [zeroQtyItem] = 0 := by
  have h := malformed_quantity_inconsistency zeroQtyItem []
    (Or.inr (Or.inr rfl))
  refine ⟨?_, ?_⟩
  · have := h.2.2.1
    simpa [updateCartDisplayTotal, zeroQtyItem, jsParseFloatOr0] using this
  · have := h.2.2.2.2.1
    simpa [totalItems] using this

/-! ## C6 — read-after-write coherence of the store -/

/-- C6: a `saveCart` that returns `true` leaves the store such that an
immediately following `getCart` (within the 1000 ms cache window)
returns exactly the written array; a non-array argument makes `saveCart`
return `false` with the store — hence every later `getCart` result —
unchanged. -/
theorem cart_store_read_after_write :
    (∀ (l : List CartItem) (st : StoreState) (now now2 : Nat) (wt rt : Bool),
      (saveCart now wt (.arr l) st).1 = true →
      now2 - now < CACHE_DURATION →
      (getCart now2 rt (saveCart now wt (.arr l) st).2).1 = l) ∧
    (∀ (st : StoreState) (now : Nat) (wt : Bool),
      saveCart now wt .nonArray st = (false, st) ∧
      ∀ (now2 : Nat) (rt : Bool),
        getCart now2 rt (saveCart now wt .nonArray st).2 = getCart now2 rt st) := by
  constructor
  · intro l st now now2 wt rt hs hlt
    cases wt with
    | true => simp [saveCart] at hs
    | false => simp [saveCart, getCart, hlt]
  · intro st now wt
    exact ⟨rfl, fun now2 rt => rfl⟩

/-- Closed instance of `cart_store_read_after_write`: write a one-entry
cart at t=0, read it back at t=5. -/
theorem cart_store_read_after_write_witness :
    (getCart 5 false
      (saveCart 0 false (.arr [sampleItem])
        { stored := .absent, cache := none, cacheTime := 0 }).2).1 = [sampleItem] :=
  cart_store_read_after_write.1 [sampleItem]
    { stored := .absent, cache := none, cacheTime := 0 } 0 5 false false rfl (by decide)

/-! ## C7 — getCart degrades to the empty cart -/

/-- C7: whenever `getCart` actually consults storage (no valid cache) and
the read throws, the content is malformed (`JSON.parse` throws), or it
parses to a non-array, the call returns `[]` — it is a total function and
never propagates the failure. -/
theorem getCart_failure_returns_empty (now : Nat) (rt : Bool) (st : StoreState)
    (hcold : st.cache = none ∨ CACHE_DURATION ≤ now - st.cacheTime)
    (hfail : rt = true ∨ st.stored = .malformed ∨ st.stored = .nonArray) :
    (getCart now rt st).1 = [] := by
  obtain ⟨stored, cache, cacheTime⟩ := st
  have hstorage : (getCartFromStorage now rt
      ⟨stored, cache, cacheTime⟩).1 = [] := by
    rcases hfail with h | h | h
    · simp [getCartFromStorage, h]
    all_goals
      replace h : stored = _ := h
      subst h
      cases rt <;> simp [getCartFromStorage]
  cases cache with
  | none => simpa [getCart] using hstorage
  | some c =>
    rcases hcold with h | h
    · cases h
    · simp only [getCart]
      rw [if_neg (Nat.not_lt.mpr h)]
      exact hstorage

/-- Closed instance of `getCart_failure_returns_empty`: an expired cache
over malformed storage content reads back as the empty cart. -/
theorem getCart_failure_returns_empty_witness :
    (getCart 2000 false
      { stored := .malformed, cache := some [sampleItem], cacheTime := 0 }).1 = [] :=
  getCart_failure_returns_empty 2000 false _
    (Or.inr (by decide)) (Or.inr (Or.inl rfl))

/-! ## C1 — the rendered totals -/

/-- Evaluation helper: `toFixed2` at a nonnegative rational whose scaled
floor is known. -/
theorem toFixed2_eval (q : ℚ) (n : Nat)
    (h0 : ¬ q < 0) (h1 : ((n : Int) : ℚ) ≤ 100 * |q| + 1/2)
    (h2 : 100 * |q| + 1/2 < (n : Int) + 1) :
    toFixed2 q = toString (n / 100) ++ "." ++ twoDigits (n % 100) := by
  have hf : ⌊100 * |q| + 1/2⌋ = (n : Int) := Int.floor_eq_iff.mpr ⟨h1, h2⟩
  rw [toFixed2, if_neg h0, hf, Int.toNat_natCast, String.empty_append]

theorem jsTrunc_intCast (n : Int) : jsTrunc (n : ℚ) = n := by
  unfold jsTrunc
  split
  · exact Int.floor_intCast n
  · rw [← Int.cast_neg, Int.floor_intCast]
    omega

theorem itemLineTotal_eq_spec (it : CartItem)
    (hb : ∃ b : ℚ, it.basePrice = .num b)
    (hq : ∃ q : Int, q ≠ 0 ∧ it.quantity = .num (q : ℚ)) :
    itemLineTotal it = specLineTotal it := by
  obtain ⟨b, hb⟩ := hb
  obtain ⟨q, hq0, hq⟩ := hq
  simp [itemLineTotal, specLineTotal, hb, hq, jsParseFloatOr0, jsParseIntOr,
    jsParseInt, jsTrunc_intCast, hq0]

/-- C1 (counterexample to the claim as stated): the entry
`{basePrice: 85, quantity: 0}` has numeric `basePrice` and `quantity`,
yet the displayed total is `"R85.00"` (the code substitutes quantity 1
via `parseInt(quantity) || 1`), not the `"R0.00"` that the sum of
`basePrice × quantity` gives. -/
theorem totals_claim_counterexample :
    totalPriceText [zeroQtyItem] = "R85.00" ∧
    totalPriceText [zeroQtyItem] ≠ "R" ++ toFixed2 (specCartTotal [zeroQtyItem]) := by
  have hd : updateCartDisplayTotal [zeroQtyItem] = 85 := by
    norm_num [updateCartDisplayTotal, itemLineTotal, zeroQtyItem, jsParseFloatOr0,
      jsParseIntOr, jsParseInt, jsTrunc]
  have hs : specCartTotal [zeroQtyItem] = 0 := by
    norm_num [specCartTotal, specLineTotal, zeroQtyItem]
  have h85 : toFixed2 85 = "85.00" := by
    rw [toFixed2_eval 85 8500 (by norm_num) (by norm_num) (by norm_num)]
    decide
  have h0 : toFixed2 0 = "0.00" := by
    rw [toFixed2_eval 0 0 (by norm_num) (by norm_num) (by norm_num)]
    decide
  constructor
  · rw [totalPriceText, hd, h85]
    decide
  · rw [totalPriceText, hd, h85, hs, h0]
    decide

/-- C1 (amended): for every cart whose entries carry a numeric
`basePrice` and a NONZERO INTEGER `quantity`, the total rendered by
`updateCartDisplay` and the amount on `sendWhatsAppOrder`'s
`TOTAL AMOUNT` line both equal the sum over all entries of
`basePrice × quantity`, formatted to two decimals. -/
theorem totals_eq_spec_sum (cart : List CartItem)
    (hb : ∀ it ∈ cart, ∃ b : ℚ, it.basePrice = .num b)
    (hq : ∀ it ∈ cart, ∃ q : Int, q ≠ 0 ∧ it.quantity = .num (q : ℚ)) :
    totalPriceText cart = "R" ++ toFixed2 (specCartTotal cart) ∧
    totalAmountText cart = "R" ++ toFixed2 (specCartTotal cart) := by
  have hmap : cart.map itemLineTotal = cart.map specLineTotal :=
    List.map_congr_left (fun it hit => itemLineTotal_eq_spec it (hb it hit) (hq it hit))
  have h1 : updateCartDisplayTotal cart = specCartTotal cart := by
    rw [updateCartDisplayTotal, foldl_add_eq_sum, zero_add, hmap, specCartTotal]
  have h2 : sendOrderCartTotal cart = specCartTotal cart := by
    rw [sendOrderCartTotal, foldl_add_eq_sum, zero_add, hmap, specCartTotal]
  exact ⟨by rw [totalPriceText, h1], by rw [totalAmountText, h2]⟩

/-- Closed instance of `totals_eq_spec_sum`: the spec's scenario
`[{basePrice: 85, quantity: 2}]` displays `"R170.00"` in both places. -/
theorem totals_eq_spec_sum_witness :
    totalPriceText [sampleItem] = "R170.00" ∧
    totalAmountText [sampleItem] = "R170.00" := by
  have hs : specCartTotal [sampleItem] = 170 := by
    norm_num [specCartTotal, specLineTotal, sampleItem]
  have h170 : toFixed2 170 = "170.00" := by
    rw [toFixed2_eval 170 17000 (by norm_num) (by norm_num) (by norm_num)]
    decide
  have h := totals_eq_spec_sum [sampleItem]
    (by intro it hit
        rw [List.mem_singleton] at hit
        exact ⟨85, by rw [hit]; rfl⟩)
    (by intro it hit
        rw [List.mem_singleton] at hit
        refine ⟨2, by decide, ?_⟩
        rw [hit]
        norm_num [sampleItem])
  rw [hs, h170] at h
  exact h

/-! ## C2 — phone validation -/

theorem phoneTail_iff (l : List Char) :
    phoneTail l = true ↔ ∃ c rest, l = c :: rest ∧ isDigit19 c = true ∧
      rest.length = 8 ∧ ∀ d ∈ rest, isDigitChar d = true := by
  cases l with
  | nil => simp [phoneTail]
  | cons c rest =>
    simp only [phoneTail, Bool.and_eq_true, beq_iff_eq, List.all_eq_true]
    constructor
    · rintro ⟨⟨h1, h2⟩, h3⟩
      exact ⟨c, rest, rfl, h1, h2, h3⟩
    · rintro ⟨c', rest', heq, h1, h2, h3⟩
      injection heq with hc hr
      subst hc; subst hr
      exact ⟨⟨h1, h2⟩, h3⟩

theorem phoneRegexTest_iff (s : String) :
    phoneRegexTest s = true ↔ specPhonePattern s := by
  unfold phoneRegexTest specPhonePattern
  split
  · next rest heq =>
    rw [phoneTail_iff]
    constructor
    · rintro ⟨c, r8, hrest, hd, hl, hall⟩
      exact ⟨c, r8, Or.inl (by rw [heq, hrest]), hd, hl, hall⟩
    · rintro ⟨c, r8, h | h, hd, hl, hall⟩
      · rw [heq] at h
        injection h with _ h; injection h with _ h; injection h with _ h
        exact ⟨c, r8, h, hd, hl, hall⟩
      · rw [heq] at h
        injection h with h1 _
        exact absurd h1 (by decide)
  · next rest heq =>
    rw [phoneTail_iff]
    constructor
    · rintro ⟨c, r8, hrest, hd, hl, hall⟩
      exact ⟨c, r8, Or.inr (by rw [heq, hrest]), hd, hl, hall⟩
    · rintro ⟨c, r8, h | h, hd, hl, hall⟩
      · rw [heq] at h
        injection h with h1 _
        exact absurd h1 (by decide)
      · rw [heq] at h
        injection h with _ h
        exact ⟨c, r8, h, hd, hl, hall⟩
  · next h1 h2 =>
    simp only [Bool.false_eq_true, false_iff]
    rintro ⟨c, r8, h | h, _, _, _⟩
    · exact h1 (c :: r8) h
    · exact h2 (c :: r8) h

/-- C2: the validation accepts exactly the space-stripped strings of the
form (`+27` | `0`) `[1-9]` `[0-9]{8}`; in particular `"0821234567"` and
`"+27821234567"` pass (the latter displayed as `"0821234567"`), while
`"123"` and `"08212345"` fail. -/
theorem phone_validation_spec :
    (∀ phone, phoneAccepted phone = true ↔ specPhonePattern (stripWs phone)) ∧
    phoneAccepted "0821234567" = true ∧
    phoneAccepted "+27821234567" = true ∧
    displayPhone "+27821234567" = "0821234567" ∧
    phoneAccepted "123" = false ∧
    phoneAccepted "08212345" = false := by
  refine ⟨fun phone => phoneRegexTest_iff (stripWs phone), ?_, ?_, ?_, ?_, ?_⟩ <;> decide

/-- Closed instance of `phone_validation_spec`: the accepted string
`"0821234567"` indeed matches the spec's pattern. -/
theorem phone_validation_spec_witness : specPhonePattern (stripWs "0821234567") :=
  (phone_validation_spec.1 "0821234567").mp (by decide)

/-! ## C3/C4/C5 — the order composer's state transitions -/

theorem getCartFromStorage_preserves_stored (now : Nat) (rt : Bool)
    (st : StoreState) : (getCartFromStorage now rt st).2.stored = st.stored := by
  obtain ⟨stored, cache, cacheTime⟩ := st
  cases rt
  · cases stored <;> simp [getCartFromStorage]
  · simp [getCartFromStorage]

theorem getCart_preserves_stored (now : Nat) (rt : Bool) (st : StoreState) :
    (getCart now rt st).2.stored = st.stored := by
  obtain ⟨stored, cache, cacheTime⟩ := st
  cases cache with
  | none => simpa [getCart] using getCartFromStorage_preserves_stored now rt _
  | some c =>
    by_cases hc : now - cacheTime < CACHE_DURATION
    · simp [getCart, hc]
    · simp only [getCart]
      rw [if_neg hc]
      exact getCartFromStorage_preserves_stored now rt _

/-- C5: if the cart read at the start of `sendWhatsAppOrder` is empty,
the call enqueues the empty-cart error notification and returns `false`,
never attempts to open a link (so no message is used), and leaves the
input fields and the persisted cart unmodified. -/
theorem empty_cart_send_aborts (now : Nat) (rt wt : Bool) (openRes : OpenResult)
    (st : PageState) (hempty : (getCart now rt st.store).1 = []) :
    (sendWhatsAppOrder now rt wt openRes st).ok = false ∧
    (sendWhatsAppOrder now rt wt openRes st).openTried = false ∧
    (sendWhatsAppOrder now rt wt openRes st).state.store.stored = st.store.stored ∧
    (sendWhatsAppOrder now rt wt openRes st).state.nameField = st.nameField ∧
    (sendWhatsAppOrder now rt wt openRes st).state.phoneField = st.phoneField ∧
    (sendWhatsAppOrder now rt wt openRes st).state.instructionsField =
      st.instructionsField ∧
    (sendWhatsAppOrder now rt wt openRes st).state.notifs =
      st.notifs ++ [("Your cart is empty!", "error")] := by
  have hst := getCart_preserves_stored now rt st.store
  simp [sendWhatsAppOrder, hempty, pushNotif, hst]

/-- Closed instance of `empty_cart_send_aborts` on a concrete page with
an empty persisted cart. -/
theorem empty_cart_send_aborts_witness :
    (sendWhatsAppOrder 0 false false .opened emptyCartPage).ok = false ∧
    (sendWhatsAppOrder 0 false false .opened emptyCartPage).openTried = false ∧
    (sendWhatsAppOrder 0 false false .opened emptyCartPage).state.nameField = "Jo" := by
  have h := empty_cart_send_aborts 0 false false .opened emptyCartPage rfl
  exact ⟨h.1, h.2.1, h.2.2.2.1⟩

/-- C3: when all validations pass but the deep-link open fails
(`window.open` returns a falsy handle or throws), `sendWhatsAppOrder`
enqueues an error notification and returns `false`, leaving the
persisted cart and the three input fields exactly as they were. -/
theorem open_failure_preserves_state (now : Nat) (rt wt : Bool)
    (openRes : OpenResult) (st : PageState)
    (hcart : (getCart now rt st.store).1 ≠ [])
    (hname : jsTrim st.nameField ≠ "")
    (hphone : jsTrim st.phoneField ≠ "")
    (hvalid : phoneRegexTest (stripWs (jsTrim st.phoneField)) = true)
    (hopen : openRes = .blocked ∨ openRes = .threw) :
    (sendWhatsAppOrder now rt wt openRes st).ok = false ∧
    (sendWhatsAppOrder now rt wt openRes st).openTried = true ∧
    (sendWhatsAppOrder now rt wt openRes st).state.store.stored = st.store.stored ∧
    (sendWhatsAppOrder now rt wt openRes st).state.nameField = st.nameField ∧
    (sendWhatsAppOrder now rt wt openRes st).state.phoneField = st.phoneField ∧
    (sendWhatsAppOrder now rt wt openRes st).state.instructionsField =
      st.instructionsField ∧
    ∃ m, (sendWhatsAppOrder now rt wt openRes st).state.notifs =
      st.notifs ++ [(m, "error")] := by
  have hlen : ¬ ((getCart now rt st.store).1.length = 0) := by
    simpa [List.length_eq_zero] using hcart
  have hnp : ¬ (jsTrim st.nameField = "" ∨ jsTrim st.phoneField = "") :=
    not_or.mpr ⟨hname, hphone⟩
  have hst := getCart_preserves_stored now rt st.store
  rcases hopen with rfl | rfl
  · refine ⟨?_, ?_, ?_, ?_, ?_, ?_, "Please allow pop-ups to send the order", ?_⟩ <;>
      simp [sendWhatsAppOrder, hlen, hnp, hvalid, pushNotif, hst]
  · refine ⟨?_, ?_, ?_, ?_, ?_, ?_, "Could not open WhatsApp", ?_⟩ <;>
      simp [sendWhatsAppOrder, hlen, hnp, hvalid, pushNotif, hst]

/-- Closed instance of `open_failure_preserves_state`: a pop-up-blocked
send on a valid one-entry cart fails and keeps the cart and fields. -/
theorem open_failure_preserves_state_witness :
    (sendWhatsAppOrder 0 false false .blocked samplePage).ok = false ∧
    (sendWhatsAppOrder 0 false false .blocked samplePage).state.store.stored =
      .arr [sampleItem] ∧
    (sendWhatsAppOrder 0 false false .blocked samplePage).state.nameField = "Jo" := by
  have h := open_failure_preserves_state 0 false false .blocked samplePage
    (by decide) (by decide) (by decide) (by decide) (Or.inl rfl)
  exact ⟨h.1, h.2.2.1.trans rfl, h.2.2.2.1⟩

/-- C4: when all validations pass and the deep-link open is confirmed,
`sendWhatsAppOrder` writes the empty list to the cart store, clears the
three input fields, enqueues the success notification and returns
`true` (assuming the storage write itself does not throw). -/
theorem successful_send_clears_state (now : Nat) (rt : Bool) (st : PageState)
    (hcart : (getCart now rt st.store).1 ≠ [])
    (hname : jsTrim st.nameField ≠ "")
    (hphone : jsTrim st.phoneField ≠ "")
    (hvalid : phoneRegexTest (stripWs (jsTrim st.phoneField)) = true) :
    (sendWhatsAppOrder now rt false .opened st).ok = true ∧
    (sendWhatsAppOrder now rt false .opened st).state.store.stored = .arr [] ∧
    (sendWhatsAppOrder now rt false .opened st).state.nameField = "" ∧
    (sendWhatsAppOrder now rt false .opened st).state.phoneField = "" ∧
    (sendWhatsAppOrder now rt false .opened st).state.instructionsField = "" ∧
    (sendWhatsAppOrder now rt false .opened st).state.notifs =
      st.notifs ++ [("Order sent successfully! Check WhatsApp.", "success")] := by
  have hlen : ¬ ((getCart now rt st.store).1.length = 0) := by
    simpa [List.length_eq_zero] using hcart
  have hnp : ¬ (jsTrim st.nameField = "" ∨ jsTrim st.phoneField = "") :=
    not_or.mpr ⟨hname, hphone⟩
  have hget2 : getCart now rt ⟨.arr [], some [], now⟩ = ([], ⟨.arr [], some [], now⟩) := by
    simp [getCart, CACHE_DURATION]
  simp [sendWhatsAppOrder, hlen, hnp, hvalid, pushNotif, saveCart, hget2]

/-- Closed instance of `successful_send_clears_state` on the sample page. -/
theorem successful_send_clears_state_witness :
    (sendWhatsAppOrder 0 false false .opened samplePage).ok = true ∧
    (sendWhatsAppOrder 0 false false .opened samplePage).state.store.stored =
      .arr [] ∧
    (sendWhatsAppOrder 0 false false .opened samplePage).state.nameField = "" := by
  have h := successful_send_clears_state 0 false samplePage
    (by decide) (by decide) (by decide) (by decide)
  exact ⟨h.1, h.2.1, h.2.2.1⟩

/-! ## C8 — both formatters factor through the same semantic decoding -/

theorem displaySegFrags_eq (l : List String) :
    displaySegFrags l = (decodeSegsList l).map renderSegDisplay := by
  induction l with
  | nil => rfl
  | cons o r ih =>
    simp only [displaySegFrags, decodeSegsList]
    split_ifs <;> simp [renderSegDisplay, ih]

theorem msgSegsStr_eq (l : List String) :
    msgSegsStr l = String.join ((decodeSegsList l).map renderSegMsg) := by
  induction l with
  | nil => rfl
  | cons o r ih =>
    simp only [msgSegsStr, decodeSegsList]
    split_ifs <;>
      simp [renderSegMsg, string_join_cons, ih, String.empty_append]

theorem msgSubsList_eq (l : List SubItem) :
    msgSubsList l = (decodeSubs l).map renderSubMsg := by
  induction l with
  | nil => rfl
  | cons x xs ih =>
    simp only [msgSubsList, decodeSubs]
    split_ifs <;> simp [renderSubMsg, ih]

theorem displaySubsLoop_true (header icon : String) (l : List SubItem)
    (acc : String) :
    displaySubsLoop header icon l true acc =
      (true, acc ++ String.join ((decodeSubs l).map (renderSubDisplay icon))) := by
  induction l generalizing acc with
  | nil => simp [displaySubsLoop, decodeSubs, String.join, String.append_empty]
  | cons x xs ih =>
    simp only [displaySubsLoop, decodeSubs]
    split_ifs with h
    · rw [ih]
      simp [renderSubDisplay, string_join_cons, String.append_assoc]
    · exact ih acc

theorem displaySubsLoop_start (header icon : String) (l : List SubItem) :
    displaySubsLoop header icon l false "" =
      (if decodeSubs l = [] then (false, "")
       else (true,
         header ++ String.join ((decodeSubs l).map (renderSubDisplay icon)))) := by
  induction l with
  | nil => simp [displaySubsLoop, decodeSubs]
  | cons x xs ih =>
    by_cases h : subQty x > 0
    · simp only [displaySubsLoop, decodeSubs, if_pos h]
      rw [displaySubsLoop_true]
      have hne : (⟨x.name.getD "", subQty x⟩ : SubSel) :: decodeSubs xs ≠ [] := by
        simp
      rw [if_neg hne]
      simp [renderSubDisplay, string_join_cons, String.append_assoc,
        String.empty_append]
    · simp only [displaySubsLoop, decodeSubs, if_neg h]
      exact ih

/-- C8: `formatOptionsForDisplay` and the plain-text options/extras/drinks
decoding of the message builder are two renderings of one shared semantic
decode (`entrySemantics`): each recognizes the same `Greens:`/`Sauces:`
segments with the same decoded values and lists exactly the
positive-quantity extras and drinks with the same quantities — the two
outputs differ only by the pure rendering functions (`renderDisplay` vs
`renderMsg`), which carry the side-specific output format and name
sanitization. -/
theorem formatters_share_semantics (it : CartItem) :
    formatOptionsForDisplay it = renderDisplay (entrySemantics it) ∧
    msgItemOptions it = renderMsg (entrySemantics it) := by
  constructor
  · rw [formatOptionsForDisplay, renderDisplay, entrySemantics]
    rw [displaySegFrags_eq, displaySubsLoop_start, displaySubsLoop_start]
    by_cases he : decodeSubs (it.extras.getD []) = [] <;>
    by_cases hd : decodeSubs (it.drinks.getD []) = [] <;>
      simp [he, hd]
  · rw [msgItemOptions, renderMsg, entrySemantics]
    rw [msgSegsStr_eq, msgSubsList_eq, msgSubsList_eq]
    by_cases he : decodeSubs (it.extras.getD []) = [] <;>
    by_cases hd : decodeSubs (it.drinks.getD []) = [] <;>
      simp [he, hd, List.length_pos, String.append_assoc]

end Kodijong

